import Mathlib

/-!
Verification of `src/verify.py`, a rank-23 bilinear scheme for 3x3 matrix
multiplication (`fast_3x3_rank23`).  The shallow embedding below transcribes
each named intermediate of the source (the pre-additions `t0..t5` and
`u0..u5`, the 23 scalar products `M0..M22`, the aggregates `v0..v8` and the
output entries `C0..C8`) as a Lean definition over an arbitrary commutative
ring, and the top-level function including its shape check as a function on
a small ndarray model returning `Except ShapeError`.
-/

namespace Verify

variable {R : Type} [CommRing R]

/-- Model of a numpy ndarray: a shape together with the row-major flat data.
`ravel` returns the flat data. -/
structure NDArray (R : Type) where
  shape : List Nat
  data : List R
deriving DecidableEq

/-- Flattening (the ravel operation): the row-major flat data. -/
def ravel (x : NDArray R) : List R := x.data

/-- The single error kind of the kernel: a malformed input shape
(tuple unpacking of the 9 entries fails). -/
inductive ShapeError where
  | shapeError
deriving DecidableEq

/- Pre-additions on A (source lines 22-27). -/

def t0 (A : Fin 9 → R) : R := A 0 - A 3

def t1 (A : Fin 9 → R) : R := A 4 + A 5

def t2 (A : Fin 9 → R) : R := A 6 + A 8

def t3 (A : Fin 9 → R) : R := A 1 + A 2

def t4 (A : Fin 9 → R) : R := A 7 - t1 A

def t5 (A : Fin 9 → R) : R := t0 A + t2 A

/- Pre-additions on B (source lines 29-34). -/

def u0 (B : Fin 9 → R) : R := B 0 - B 2

def u1 (B : Fin 9 → R) : R := B 4 - B 7

def u2 (B : Fin 9 → R) : R := B 1 + u0 B

def u3 (B : Fin 9 → R) : R := B 5 - B 8

def u4 (B : Fin 9 → R) : R := B 6 + u3 B

def u5 (B : Fin 9 → R) : R := u1 B + u2 B

/- The 23 scalar products (source lines 37-59). -/

def M0 (A B : Fin 9 → R) : R := (-t3 A) * (-B 7)

def M1 (A B : Fin 9 → R) : R := (-A 3 + A 4 - A 7) * (-u1 B)

def M2 (A B : Fin 9 → R) : R := (A 1 - A 3) * u5 B

def M3 (A B : Fin 9 → R) : R := (-t0 A) * (-u0 B)

def M4 (A B : Fin 9 → R) : R := (-A 5) * u3 B

def M5 (A B : Fin 9 → R) : R := (A 8 + t4 A) * B 7

def M6 (A B : Fin 9 → R) : R := (-A 8) * (-B 2 + B 7 + B 8)

def M7 (A B : Fin 9 → R) : R := t4 A * (B 5 + B 7)

def M8 (A B : Fin 9 → R) : R := (-A 7) * (-B 3)

def M9 (A B : Fin 9 → R) : R := (A 1 + A 5) * (-u4 B)

def M10 (A B : Fin 9 → R) : R := (-t5 A) * (B 2 - B 6)

def M11 (A B : Fin 9 → R) : R := (-A 6) * B 1

def M12 (A B : Fin 9 → R) : R := (A 2 - A 5 + t5 A) * (-B 6)

def M13 (A B : Fin 9 → R) : R := (-A 0 + A 1) * u2 B

def M14 (A B : Fin 9 → R) : R := (-A 3) * B 2

def M15 (A B : Fin 9 → R) : R := (A 6 + t0 A) * (B 0 - B 6)

def M16 (A B : Fin 9 → R) : R := A 7 * (B 4 + B 5)

def M17 (A B : Fin 9 → R) : R := t3 A * (-B 6 + B 8)

def M18 (A B : Fin 9 → R) : R := (-t2 A) * B 2

def M19 (A B : Fin 9 → R) : R := (-A 1) * (-B 3 + u4 B - u5 B)

def M20 (A B : Fin 9 → R) : R := (-A 1 + A 4) * B 3

def M21 (A B : Fin 9 → R) : R := (-t1 A) * (-B 5)

def M22 (A B : Fin 9 → R) : R := A 3 * (B 1 + u1 B)

/- The v-aggregates (source lines 62-70). -/

def v0 (A B : Fin 9 → R) : R := M4 A B - M14 A B

def v1 (A B : Fin 9 → R) : R := M2 A B + M22 A B

def v2 (A B : Fin 9 → R) : R := M7 A B + M21 A B

def v3 (A B : Fin 9 → R) : R := M9 A B - v0 A B

def v4 (A B : Fin 9 → R) : R := M10 A B - M18 A B

def v5 (A B : Fin 9 → R) : R := M3 A B - v1 A B

def v6 (A B : Fin 9 → R) : R := M5 A B - v2 A B

def v7 (A B : Fin 9 → R) : R := M12 A B + v3 A B

def v8 (A B : Fin 9 → R) : R := v4 A B + v7 A B

/- The output entries (source lines 73-81). -/

def C0 (A B : Fin 9 → R) : R := M19 A B + v5 A B - v8 A B

def C1 (A B : Fin 9 → R) : R := M0 A B - M13 A B - v5 A B

def C2 (A B : Fin 9 → R) : R := M17 A B - v8 A B

def C3 (A B : Fin 9 → R) : R := M19 A B + M20 A B - v1 A B - v3 A B

def C4 (A B : Fin 9 → R) : R := -M1 A B + M16 A B + M22 A B - v2 A B

def C5 (A B : Fin 9 → R) : R := M21 A B + v0 A B

def C6 (A B : Fin 9 → R) : R := -M3 A B + M8 A B + M15 A B + v4 A B

def C7 (A B : Fin 9 → R) : R := -M11 A B + M16 A B + v6 A B

def C8 (A B : Fin 9 → R) : R := -M6 A B - M18 A B - v6 A B

/-- The 9 output entries, row-major, as a list. -/
def outEntries (A B : Fin 9 → R) : List R :=
  [C0 A B, C1 A B, C2 A B,
   C3 A B, C4 A B, C5 A B,
   C6 A B, C7 A B, C8 A B]

/-- The kernel `fast_3x3_rank23` (source lines 3-85): ravel both inputs, unpack the 9
entries of each (failing with a shape error when an input does not hold
exactly 9 elements, before any arithmetic), run the scheme, and return a
freshly built 3x3 array of the 9 outputs. -/
def fast_3x3_rank23 (A B : NDArray R) : Except ShapeError (NDArray R) :=
  match ravel A, ravel B with
  | [a0, a1, a2, a3, a4, a5, a6, a7, a8], [b0, b1, b2, b3, b4, b5, b6, b7, b8] =>
    .ok ⟨[3, 3], outEntries ![a0, a1, a2, a3, a4, a5, a6, a7, a8]
                            ![b0, b1, b2, b3, b4, b5, b6, b7, b8]⟩
  | _, _ => .error .shapeError

/-- Row-major index of position `(i, j)` in a 3x3 matrix. -/
def idx3 (i j : Fin 3) : Fin 9 := ⟨3 * i.val + j.val, by omega⟩

/-- The standard (naive) matrix product, entry for entry, on row-major
3x3 data. -/
def matmul3 (A B : Fin 9 → R) : Fin 9 → R := fun p =>
  ∑ k : Fin 3, A (idx3 ⟨p.val / 3, by omega⟩ k) * B (idx3 k ⟨p.val % 3, by omega⟩)

/-- The flat row-major data list of a 3x3 matrix given as an entry function. -/
def dataOf (A : Fin 9 → R) : List R :=
  [A 0, A 1, A 2, A 3, A 4, A 5, A 6, A 7, A 8]

/-- View row-major 3x3 data as a Mathlib matrix. -/
def toMatrix (A : Fin 9 → R) : Matrix (Fin 3) (Fin 3) R :=
  Matrix.of fun i j => A (idx3 i j)

/-- The entries of the standard Mathlib product `toMatrix A * toMatrix B`,
listed row-major: the reference against which the scheme is checked. -/
def prodEntries (A B : Fin 9 → R) : List R :=
  [(toMatrix A * toMatrix B) 0 0, (toMatrix A * toMatrix B) 0 1, (toMatrix A * toMatrix B) 0 2,
   (toMatrix A * toMatrix B) 1 0, (toMatrix A * toMatrix B) 1 1, (toMatrix A * toMatrix B) 1 2,
   (toMatrix A * toMatrix B) 2 0, (toMatrix A * toMatrix B) 2 1, (toMatrix A * toMatrix B) 2 2]

lemma idx3_0_0 : idx3 0 0 = (0 : Fin 9) := rfl

lemma idx3_0_1 : idx3 0 1 = (1 : Fin 9) := rfl

lemma idx3_0_2 : idx3 0 2 = (2 : Fin 9) := rfl

lemma idx3_1_0 : idx3 1 0 = (3 : Fin 9) := rfl

lemma idx3_1_1 : idx3 1 1 = (4 : Fin 9) := rfl

lemma idx3_1_2 : idx3 1 2 = (5 : Fin 9) := rfl

lemma idx3_2_0 : idx3 2 0 = (6 : Fin 9) := rfl

lemma idx3_2_1 : idx3 2 1 = (7 : Fin 9) := rfl

lemma idx3_2_2 : idx3 2 2 = (8 : Fin 9) := rfl

omit [CommRing R] in
lemma eta9 (A : Fin 9 → R) :
    ![A 0, A 1, A 2, A 3, A 4, A 5, A 6, A 7, A 8] = A := by
  funext i
  fin_cases i <;> rfl

/-- Core algebraic fact: the nine outputs of the scheme are exactly the nine
entries of the standard matrix product, over any commutative ring. -/
lemma outEntries_correct (A B : Fin 9 → R) :
    outEntries A B = prodEntries A B := by
  simp only [outEntries, prodEntries, C0, C1, C2, C3, C4, C5, C6, C7, C8,
    v0, v1, v2, v3, v4, v5, v6, v7, v8,
    M0, M1, M2, M3, M4, M5, M6, M7, M8, M9, M10, M11, M12, M13, M14, M15,
    M16, M17, M18, M19, M20, M21, M22,
    t0, t1, t2, t3, t4, t5, u0, u1, u2, u3, u4, u5,
    toMatrix, Matrix.mul_apply, Matrix.of_apply, Fin.sum_univ_three,
    idx3_0_0, idx3_0_1, idx3_0_2, idx3_1_0, idx3_1_1, idx3_1_2,
    idx3_2_0, idx3_2_1, idx3_2_2, List.cons.injEq, and_true]
  refine ⟨?_, ?_, ?_, ?_, ?_, ?_, ?_, ?_, ?_⟩ <;> ring

/-- Claim C1: for every pair of 3x3 matrices over any commutative ring,
`fast_3x3_rank23` returns (successfully) the 3x3 matrix whose entries are
those of the standard matrix product, entry for entry. -/
theorem claim_C1 (A B : Fin 9 → R) :
    fast_3x3_rank23 ⟨[3, 3], dataOf A⟩ ⟨[3, 3], dataOf B⟩ =
      .ok ⟨[3, 3], prodEntries A B⟩ := by
  show Except.ok (⟨[3, 3], outEntries
      ![A 0, A 1, A 2, A 3, A 4, A 5, A 6, A 7, A 8]
      ![B 0, B 1, B 2, B 3, B 4, B 5, B 6, B 7, B 8]⟩ : NDArray R) = _
  rw [eta9 A, eta9 B, outEntries_correct]

/-- Claim C2: the preprocessing phase computes exactly the twelve fixed
linear combinations `t0..t5` of A's entries and `u0..u5` of B's entries
given in the spec. -/
theorem claim_C2 (A B : Fin 9 → R) :
    t0 A = A 0 - A 3 ∧ t1 A = A 4 + A 5 ∧ t2 A = A 6 + A 8 ∧
    t3 A = A 1 + A 2 ∧ t4 A = A 7 - t1 A ∧ t5 A = t0 A + t2 A ∧
    u0 B = B 0 - B 2 ∧ u1 B = B 4 - B 7 ∧ u2 B = B 1 + u0 B ∧
    u3 B = B 5 - B 8 ∧ u4 B = B 6 + u3 B ∧ u5 B = u1 B + u2 B :=
  ⟨rfl, rfl, rfl, rfl, rfl, rfl, rfl, rfl, rfl, rfl, rfl, rfl⟩

/-- The entry function of an ndarray holding at least 9 scalars
(out-of-range reads default to 0; only in-range reads are ever used). -/
def entries (x : NDArray R) : Fin 9 → R := fun i => (ravel x).getD i.val 0

lemma entries_eq_vec (s : List Nat) (x0 x1 x2 x3 x4 x5 x6 x7 x8 : R) :
    entries ⟨s, [x0, x1, x2, x3, x4, x5, x6, x7, x8]⟩ =
      ![x0, x1, x2, x3, x4, x5, x6, x7, x8] := by
  funext i
  fin_cases i <;> rfl

lemma length9_eq {S : Type} (l : List S) (h : l.length = 9) :
    ∃ x0 x1 x2 x3 x4 x5 x6 x7 x8, l = [x0, x1, x2, x3, x4, x5, x6, x7, x8] := by
  rcases l with _ | ⟨x0, _ | ⟨x1, _ | ⟨x2, _ | ⟨x3, _ | ⟨x4, _ | ⟨x5, _ | ⟨x6,
    _ | ⟨x7, _ | ⟨x8, _ | ⟨x9, l⟩⟩⟩⟩⟩⟩⟩⟩⟩⟩ <;>
    simp only [List.length_nil, List.length_cons] at h
  all_goals try omega
  exact ⟨x0, x1, x2, x3, x4, x5, x6, x7, x8, rfl⟩

/-- Every run of `fast_3x3_rank23` either fails with the shape error, or both
inputs hold exactly 9 elements and it succeeds with the scheme's outputs. -/
lemma fast_cases (A B : NDArray R) :
    fast_3x3_rank23 A B = .error .shapeError ∨
      ((ravel A).length = 9 ∧ (ravel B).length = 9 ∧
        fast_3x3_rank23 A B =
          .ok ⟨[3, 3], outEntries (entries A) (entries B)⟩) := by
  obtain ⟨sA, dA⟩ := A
  obtain ⟨sB, dB⟩ := B
  rcases dA with _ | ⟨a0, _ | ⟨a1, _ | ⟨a2, _ | ⟨a3, _ | ⟨a4, _ | ⟨a5, _ | ⟨a6,
    _ | ⟨a7, _ | ⟨a8, _ | ⟨a9, dA⟩⟩⟩⟩⟩⟩⟩⟩⟩⟩
  all_goals try exact Or.inl rfl
  rcases dB with _ | ⟨b0, _ | ⟨b1, _ | ⟨b2, _ | ⟨b3, _ | ⟨b4, _ | ⟨b5, _ | ⟨b6,
    _ | ⟨b7, _ | ⟨b8, _ | ⟨b9, dB⟩⟩⟩⟩⟩⟩⟩⟩⟩⟩
  all_goals try exact Or.inl rfl
  exact Or.inr ⟨rfl, rfl, by rw [entries_eq_vec, entries_eq_vec]; rfl⟩

lemma fast_ok_of_len9 (A B : NDArray R) (hA : (ravel A).length = 9)
    (hB : (ravel B).length = 9) :
    fast_3x3_rank23 A B = .ok ⟨[3, 3], outEntries (entries A) (entries B)⟩ := by
  obtain ⟨sA, dA⟩ := A
  obtain ⟨sB, dB⟩ := B
  obtain ⟨a0, a1, a2, a3, a4, a5, a6, a7, a8, rfl⟩ := length9_eq dA hA
  obtain ⟨b0, b1, b2, b3, b4, b5, b6, b7, b8, rfl⟩ := length9_eq dB hB
  rw [entries_eq_vec, entries_eq_vec]
  rfl

/-- Claim C5: a malformed input (element count other than 9, in either
argument) makes `fast_3x3_rank23` fail with the shape error — the result is
the same for all entry values, so no ring arithmetic influences it — while
two well-formed inputs always produce a success; no other error exists. -/
theorem claim_C5 (A B : NDArray R) :
    (A.data.length ≠ 9 ∨ B.data.length ≠ 9 →
      fast_3x3_rank23 A B = .error .shapeError) ∧
    (A.data.length = 9 → B.data.length = 9 →
      ∃ C, fast_3x3_rank23 A B = .ok C) := by
  constructor
  · intro hbad
    rcases fast_cases A B with h | ⟨h9A, h9B, _⟩
    · exact h
    · rcases hbad with h | h
      · exact absurd h9A h
      · exact absurd h9B h
  · intro hA hB
    exact ⟨_, fast_ok_of_len9 A B hA hB⟩

/-- Claim C5, witness: an 8-element first input over ℤ fails with the shape
error. -/
theorem claim_C5_witness :
    fast_3x3_rank23 (R := ℤ) ⟨[8], [1, 2, 3, 4, 5, 6, 7, 8]⟩
      ⟨[3, 3], [1, 0, 0, 0, 1, 0, 0, 0, 1]⟩ = .error .shapeError :=
  (claim_C5 _ _).1 (Or.inl (by decide))

/-- Claim C7: the four fixed scenarios — zero times zero is zero, identity
times identity is identity, `[[1,2,3],[4,5,6],[7,8,9]]` times identity is
unchanged, and all-ones times all-ones is all-threes — hold over ℤ. -/
theorem claim_C7 :
    fast_3x3_rank23 (R := ℤ) ⟨[3, 3], [0, 0, 0, 0, 0, 0, 0, 0, 0]⟩
        ⟨[3, 3], [0, 0, 0, 0, 0, 0, 0, 0, 0]⟩ =
      .ok ⟨[3, 3], [0, 0, 0, 0, 0, 0, 0, 0, 0]⟩ ∧
    fast_3x3_rank23 (R := ℤ) ⟨[3, 3], [1, 0, 0, 0, 1, 0, 0, 0, 1]⟩
        ⟨[3, 3], [1, 0, 0, 0, 1, 0, 0, 0, 1]⟩ =
      .ok ⟨[3, 3], [1, 0, 0, 0, 1, 0, 0, 0, 1]⟩ ∧
    fast_3x3_rank23 (R := ℤ) ⟨[3, 3], [1, 2, 3, 4, 5, 6, 7, 8, 9]⟩
        ⟨[3, 3], [1, 0, 0, 0, 1, 0, 0, 0, 1]⟩ =
      .ok ⟨[3, 3], [1, 2, 3, 4, 5, 6, 7, 8, 9]⟩ ∧
    fast_3x3_rank23 (R := ℤ) ⟨[3, 3], [1, 1, 1, 1, 1, 1, 1, 1, 1]⟩
        ⟨[3, 3], [1, 1, 1, 1, 1, 1, 1, 1, 1]⟩ =
      .ok ⟨[3, 3], [3, 3, 3, 3, 3, 3, 3, 3, 3]⟩ := by
  refine ⟨?_, ?_, ?_, ?_⟩ <;> rfl

/-- Claim C8: the kernel is deterministic — two calls on equal inputs return
equal outputs (and, the embedding being a pure function on immutable values,
no call can mutate its inputs). -/
theorem claim_C8 (A B A2 B2 : NDArray R) (hA : A = A2) (hB : B = B2) :
    fast_3x3_rank23 A B = fast_3x3_rank23 A2 B2 := by
  rw [hA, hB]

/-- Claim C8, witness: two identical concrete calls over ℤ agree. -/
theorem claim_C8_witness :
    fast_3x3_rank23 (R := ℤ) ⟨[3, 3], [1, 0, 0, 0, 1, 0, 0, 0, 1]⟩
        ⟨[3, 3], [1, 2, 3, 4, 5, 6, 7, 8, 9]⟩ =
      fast_3x3_rank23 (R := ℤ) ⟨[3, 3], [1, 0, 0, 0, 1, 0, 0, 0, 1]⟩
        ⟨[3, 3], [1, 2, 3, 4, 5, 6, 7, 8, 9]⟩ :=
  claim_C8 _ _ _ _ rfl rfl

/-- Claim C9: any input holding exactly 9 elements is accepted whatever its
recorded shape, and the result is the standard product of the two inputs
read as row-major 3x3 matrices: the element count is the only enforced
shape constraint. -/
theorem claim_C9 (sA sB : List Nat) (A B : Fin 9 → R) :
    fast_3x3_rank23 ⟨sA, dataOf A⟩ ⟨sB, dataOf B⟩ =
      .ok ⟨[3, 3], prodEntries A B⟩ := by
  show Except.ok (⟨[3, 3], outEntries
      ![A 0, A 1, A 2, A 3, A 4, A 5, A 6, A 7, A 8]
      ![B 0, B 1, B 2, B 3, B 4, B 5, B 6, B 7, B 8]⟩ : NDArray R) = _
  rw [eta9 A, eta9 B, outEntries_correct]

/-- Claim C10: the result is a freshly constructed 3x3 array built from the
9 newly computed entries; in particular passing the same array as both
arguments returns that fresh array holding the square of the input. -/
theorem claim_C10 (s : List Nat) (A : Fin 9 → R) :
    fast_3x3_rank23 ⟨s, dataOf A⟩ ⟨s, dataOf A⟩ =
      .ok ⟨[3, 3], prodEntries A A⟩ := by
  show Except.ok (⟨[3, 3], outEntries
      ![A 0, A 1, A 2, A 3, A 4, A 5, A 6, A 7, A 8]
      ![A 0, A 1, A 2, A 3, A 4, A 5, A 6, A 7, A 8]⟩ : NDArray R) = _
  rw [eta9 A, outEntries_correct]

/-- Running tally of the scalar ring operations a call performs:
multiplications, binary additions/subtractions, and unary negations. -/
structure OpCount where
  mul : Nat
  add : Nat
  neg : Nat
deriving DecidableEq

/-- Computation instrumented with an operation tally. -/
abbrev Counted (R : Type) := StateM OpCount R

def cmul (x y : R) : Counted R := fun c => (x * y, { c with mul := c.mul + 1 })

def cadd (x y : R) : Counted R := fun c => (x + y, { c with add := c.add + 1 })

def csub (x y : R) : Counted R := fun c => (x - y, { c with add := c.add + 1 })

def cneg (x : R) : Counted R := fun c => (-x, { c with neg := c.neg + 1 })

/-- The kernel transcribed operation by operation (each line of the
source yields one counted operation per `*`, binary `+`/`-`, and unary `-`
it contains; values are let-bound once, exactly as the source binds them). -/
def fast_3x3_rank23_counted (A B : Fin 9 → R) : Counted (List R) := do
  -- pre-additions
  let t0 ← csub (A 0) (A 3)
  let t1 ← cadd (A 4) (A 5)
  let t2 ← cadd (A 6) (A 8)
  let t3 ← cadd (A 1) (A 2)
  let t4 ← csub (A 7) t1
  let t5 ← cadd t0 t2
  let u0 ← csub (B 0) (B 2)
  let u1 ← csub (B 4) (B 7)
  let u2 ← cadd (B 1) u0
  let u3 ← csub (B 5) (B 8)
  let u4 ← cadd (B 6) u3
  let u5 ← cadd u1 u2
  -- 23 scalar products
  let x ← cneg t3
  let y ← cneg (B 7)
  let M0 ← cmul x y                      -- M0  = (-t3) * (-B7)
  let x ← cneg (A 3)
  let x ← cadd x (A 4)
  let x ← csub x (A 7)
  let y ← cneg u1
  let M1 ← cmul x y                      -- M1  = (-A3 + A4 - A7) * (-u1)
  let x ← csub (A 1) (A 3)
  let M2 ← cmul x u5                     -- M2  = (A1 - A3) * u5
  let x ← cneg t0
  let y ← cneg u0
  let M3 ← cmul x y                      -- M3  = (-t0) * (-u0)
  let x ← cneg (A 5)
  let M4 ← cmul x u3                     -- M4  = (-A5) * u3
  let x ← cadd (A 8) t4
  let M5 ← cmul x (B 7)                  -- M5  = (A8 + t4) * B7
  let x ← cneg (A 8)
  let y ← cneg (B 2)
  let y ← cadd y (B 7)
  let y ← cadd y (B 8)
  let M6 ← cmul x y                      -- M6  = (-A8) * (-B2 + B7 + B8)
  let y ← cadd (B 5) (B 7)
  let M7 ← cmul t4 y                     -- M7  = t4 * (B5 + B7)
  let x ← cneg (A 7)
  let y ← cneg (B 3)
  let M8 ← cmul x y                      -- M8  = (-A7) * (-B3)
  let x ← cadd (A 1) (A 5)
  let y ← cneg u4
  let M9 ← cmul x y                      -- M9  = (A1 + A5) * (-u4)
  let x ← cneg t5
  let y ← csub (B 2) (B 6)
  let M10 ← cmul x y                     -- M10 = (-t5) * (B2 - B6)
  let x ← cneg (A 6)
  let M11 ← cmul x (B 1)                 -- M11 = (-A6) * B1
  let x ← csub (A 2) (A 5)
  let x ← cadd x t5
  let y ← cneg (B 6)
  let M12 ← cmul x y                     -- M12 = (A2 - A5 + t5) * (-B6)
  let x ← cneg (A 0)
  let x ← cadd x (A 1)
  let M13 ← cmul x u2                    -- M13 = (-A0 + A1) * u2
  let x ← cneg (A 3)
  let M14 ← cmul x (B 2)                 -- M14 = (-A3) * B2
  let x ← cadd (A 6) t0
  let y ← csub (B 0) (B 6)
  let M15 ← cmul x y                     -- M15 = (A6 + t0) * (B0 - B6)
  let y ← cadd (B 4) (B 5)
  let M16 ← cmul (A 7) y                 -- M16 = A7 * (B4 + B5)
  let y ← cneg (B 6)
  let y ← cadd y (B 8)
  let M17 ← cmul t3 y                    -- M17 = t3 * (-B6 + B8)
  let x ← cneg t2
  let M18 ← cmul x (B 2)                 -- M18 = (-t2) * B2
  let x ← cneg (A 1)
  let y ← cneg (B 3)
  let y ← cadd y u4
  let y ← csub y u5
  let M19 ← cmul x y                     -- M19 = (-A1) * (-B3 + u4 - u5)
  let x ← cneg (A 1)
  let x ← cadd x (A 4)
  let M20 ← cmul x (B 3)                 -- M20 = (-A1 + A4) * B3
  let x ← cneg t1
  let y ← cneg (B 5)
  let M21 ← cmul x y                     -- M21 = (-t1) * (-B5)
  let y ← cadd (B 1) u1
  let M22 ← cmul (A 3) y                 -- M22 = A3 * (B1 + u1)
  -- v-aggregates
  let v0 ← csub M4 M14
  let v1 ← cadd M2 M22
  let v2 ← cadd M7 M21
  let v3 ← csub M9 v0
  let v4 ← csub M10 M18
  let v5 ← csub M3 v1
  let v6 ← csub M5 v2
  let v7 ← cadd M12 v3
  let v8 ← cadd v4 v7
  -- outputs
  let x ← cadd M19 v5
  let C0 ← csub x v8                     -- C0 =  M19 + v5 - v8
  let x ← csub M0 M13
  let C1 ← csub x v5                     -- C1 =  M0 - M13 - v5
  let C2 ← csub M17 v8                   -- C2 =  M17 - v8
  let x ← cadd M19 M20
  let x ← csub x v1
  let C3 ← csub x v3                     -- C3 =  M19 + M20 - v1 - v3
  let x ← cneg M1
  let x ← cadd x M16
  let x ← cadd x M22
  let C4 ← csub x v2                     -- C4 = -M1 + M16 + M22 - v2
  let C5 ← cadd M21 v0                   -- C5 =  M21 + v0
  let x ← cneg M3
  let x ← cadd x M8
  let x ← cadd x M15
  let C6 ← cadd x v4                     -- C6 = -M3 + M8 + M15 + v4
  let x ← cneg M11
  let x ← cadd x M16
  let C7 ← cadd x v6                     -- C7 = -M11 + M16 + v6
  let x ← cneg M6
  let x ← csub x M18
  let C8 ← csub x v6                     -- C8 = -M6 - M18 - v6
  pure [C0, C1, C2, C3, C4, C5, C6, C7, C8]

set_option maxRecDepth 8000 in
/-- Claim C6: a call on well-formed inputs performs exactly 23 scalar
multiplications and exactly 60 scalar additions/subtractions (plus 28 unary
negations, which are neither multiplications nor additions/subtractions),
and the instrumented transcription returns exactly the outputs of
`fast_3x3_rank23`. -/
theorem claim_C6 (A B : Fin 9 → R) :
    (fast_3x3_rank23_counted A B).run ⟨0, 0, 0⟩ =
      (outEntries A B, ⟨23, 60, 28⟩) := rfl

/-- Selector for the 23 scalar products. -/
def Mfun (i : Fin 23) (A B : Fin 9 → R) : R :=
  match i with
  | 0 => M0 A B | 1 => M1 A B | 2 => M2 A B | 3 => M3 A B | 4 => M4 A B
  | 5 => M5 A B | 6 => M6 A B | 7 => M7 A B | 8 => M8 A B | 9 => M9 A B
  | 10 => M10 A B | 11 => M11 A B | 12 => M12 A B | 13 => M13 A B
  | 14 => M14 A B | 15 => M15 A B | 16 => M16 A B | 17 => M17 A B
  | 18 => M18 A B | 19 => M19 A B | 20 => M20 A B | 21 => M21 A B
  | 22 => M22 A B
  | ⟨n + 23, h⟩ => absurd h (by omega)

/-- Selector for the 9 aggregates. -/
def vfun (j : Fin 9) (A B : Fin 9 → R) : R :=
  match j with
  | 0 => v0 A B | 1 => v1 A B | 2 => v2 A B | 3 => v3 A B | 4 => v4 A B
  | 5 => v5 A B | 6 => v6 A B | 7 => v7 A B | 8 => v8 A B
  | ⟨n + 9, h⟩ => absurd h (by omega)

/-- Syntax of a right-hand side in the v-aggregation phase: an M-value, a
previously bound v-value, or an addition/subtraction of such expressions. -/
inductive VExpr where
  | mval : Fin 23 → VExpr
  | vvar : Fin 9 → VExpr
  | vadd : VExpr → VExpr → VExpr
  | vsub : VExpr → VExpr → VExpr
deriving DecidableEq

/-- The defining right-hand sides of `v0..v8`, transcribed from the source
(lines 62-70). -/
def vRhs : Fin 9 → VExpr
  | 0 => .vsub (.mval 4) (.mval 14)
  | 1 => .vadd (.mval 2) (.mval 22)
  | 2 => .vadd (.mval 7) (.mval 21)
  | 3 => .vsub (.mval 9) (.vvar 0)
  | 4 => .vsub (.mval 10) (.mval 18)
  | 5 => .vsub (.mval 3) (.vvar 1)
  | 6 => .vsub (.mval 5) (.vvar 2)
  | 7 => .vadd (.mval 12) (.vvar 3)
  | 8 => .vadd (.vvar 4) (.vvar 7)
  | ⟨n + 9, h⟩ => absurd h (by omega)

/-- Whether an aggregation expression mentions the variable `v_k`. -/
def mentionsV : VExpr → Fin 9 → Bool
  | .mval _, _ => false
  | .vvar j, k => j == k
  | .vadd a b, k => mentionsV a k || mentionsV b k
  | .vsub a b, k => mentionsV a k || mentionsV b k

/-- Whether an aggregation expression mentions any v-variable at all. -/
def usesAnyV : VExpr → Bool
  | .mval _ => false
  | .vvar _ => true
  | .vadd a b => usesAnyV a || usesAnyV b
  | .vsub a b => usesAnyV a || usesAnyV b

/-- Whether the right-hand side of `v_i` mentions some `v_j` with `j < i`. -/
def usesEarlierV (i : Fin 9) : Bool :=
  (List.finRange 9).any fun j => decide (j.val < i.val) && mentionsV (vRhs i) j

/-- Whether every v-definition refers only to strictly earlier v-values
(the dependency chain is acyclic and respects binding order). -/
def vChainAcyclic : Bool :=
  (List.finRange 9).all fun i => (List.finRange 9).all fun j =>
    !(mentionsV (vRhs i) j) || decide (j.val < i.val)

/-- Value of an aggregation expression given the M-values and an
environment for the v-variables. -/
def evalVExpr (m : Fin 23 → R) (env : Fin 9 → R) : VExpr → R
  | .mval i => m i
  | .vvar j => env j
  | .vadd a b => evalVExpr m env a + evalVExpr m env b
  | .vsub a b => evalVExpr m env a - evalVExpr m env b

/-- Claim C3, counterexample: the defining expression of `v4` is
`M10 - M18`, which mentions no v-variable, so `v4` does not depend on any
earlier v-value. -/
theorem claim_C3_counterexample :
    vRhs 4 = .vsub (.mval 10) (.mval 18) ∧ usesAnyV (vRhs 4) = false ∧
      usesEarlierV 4 = false :=
  ⟨rfl, rfl, by decide⟩

/-- Claim C3, amended: `v0`, `v1`, `v2` and also `v4` are built from
M-values only; each of `v3`, `v5`, `v6`, `v7`, `v8` mentions at least one
earlier v-value; in particular `v7` mentions `v3`, and `v8` mentions `v4`
and `v7`; every v-definition refers only to strictly earlier v-values; and
the transcribed right-hand sides evaluate to exactly the source's
aggregates. -/
theorem claim_C3_amended :
    usesAnyV (vRhs 0) = false ∧ usesAnyV (vRhs 1) = false ∧
    usesAnyV (vRhs 2) = false ∧ usesAnyV (vRhs 4) = false ∧
    usesEarlierV 3 = true ∧ usesEarlierV 5 = true ∧ usesEarlierV 6 = true ∧
    usesEarlierV 7 = true ∧ usesEarlierV 8 = true ∧
    mentionsV (vRhs 7) 3 = true ∧
    mentionsV (vRhs 8) 4 = true ∧ mentionsV (vRhs 8) 7 = true ∧
    vChainAcyclic = true ∧
    ∀ (A B : Fin 9 → R) (j : Fin 9),
      evalVExpr (fun i => Mfun i A B) (fun k => vfun k A B) (vRhs j) =
        vfun j A B := by
  refine ⟨rfl, rfl, rfl, rfl, by decide, by decide, by decide, by decide,
    by decide, rfl, rfl, rfl, by decide, ?_⟩
  intro A B j
  fin_cases j <;> rfl

/-- Selector for the preprocessed terms `t0..t5`. -/
def tfun (i : Fin 6) (A : Fin 9 → R) : R :=
  match i with
  | 0 => t0 A | 1 => t1 A | 2 => t2 A | 3 => t3 A | 4 => t4 A | 5 => t5 A
  | ⟨n + 6, h⟩ => absurd h (by omega)

/-- Selector for the preprocessed terms `u0..u5`. -/
def ufun (i : Fin 6) (B : Fin 9 → R) : R :=
  match i with
  | 0 => u0 B | 1 => u1 B | 2 => u2 B | 3 => u3 B | 4 => u4 B | 5 => u5 B
  | ⟨n + 6, h⟩ => absurd h (by omega)

/-- An atomic factor ingredient of a product operand: a raw entry of A or
B, or a preprocessed term. -/
inductive Atom where
  | entA : Fin 9 → Atom
  | entB : Fin 9 → Atom
  | preT : Fin 6 → Atom
  | preU : Fin 6 → Atom
deriving DecidableEq, Fintype

/-- An atom with a sign (`true` = the atom itself, `false` = its negation). -/
abbrev SignedAtom := Bool × Atom

/-- A product operand: a left-to-right sum of signed atoms. -/
abbrev Operand := List SignedAtom

def evalAtom (A B : Fin 9 → R) : Atom → R
  | .entA i => A i
  | .entB i => B i
  | .preT i => tfun i A
  | .preU i => ufun i B

def evalSigned (A B : Fin 9 → R) : SignedAtom → R
  | (true, a) => evalAtom A B a
  | (false, a) => -evalAtom A B a

def evalOperand (A B : Fin 9 → R) : Operand → R
  | [] => 0
  | p :: ps => ps.foldl (fun x q => x + evalSigned A B q) (evalSigned A B p)

/-- The two operands of each of the 23 products, transcribed from the
source (lines 37-59). -/
def Mop : Fin 23 → Operand × Operand
  | 0 => ([(false, .preT 3)], [(false, .entB 7)])
  | 1 => ([(false, .entA 3), (true, .entA 4), (false, .entA 7)], [(false, .preU 1)])
  | 2 => ([(true, .entA 1), (false, .entA 3)], [(true, .preU 5)])
  | 3 => ([(false, .preT 0)], [(false, .preU 0)])
  | 4 => ([(false, .entA 5)], [(true, .preU 3)])
  | 5 => ([(true, .entA 8), (true, .preT 4)], [(true, .entB 7)])
  | 6 => ([(false, .entA 8)], [(false, .entB 2), (true, .entB 7), (true, .entB 8)])
  | 7 => ([(true, .preT 4)], [(true, .entB 5), (true, .entB 7)])
  | 8 => ([(false, .entA 7)], [(false, .entB 3)])
  | 9 => ([(true, .entA 1), (true, .entA 5)], [(false, .preU 4)])
  | 10 => ([(false, .preT 5)], [(true, .entB 2), (false, .entB 6)])
  | 11 => ([(false, .entA 6)], [(true, .entB 1)])
  | 12 => ([(true, .entA 2), (false, .entA 5), (true, .preT 5)], [(false, .entB 6)])
  | 13 => ([(false, .entA 0), (true, .entA 1)], [(true, .preU 2)])
  | 14 => ([(false, .entA 3)], [(true, .entB 2)])
  | 15 => ([(true, .entA 6), (true, .preT 0)], [(true, .entB 0), (false, .entB 6)])
  | 16 => ([(true, .entA 7)], [(true, .entB 4), (true, .entB 5)])
  | 17 => ([(true, .preT 3)], [(false, .entB 6), (true, .entB 8)])
  | 18 => ([(false, .preT 2)], [(true, .entB 2)])
  | 19 => ([(false, .entA 1)], [(false, .entB 3), (true, .preU 4), (false, .preU 5)])
  | 20 => ([(false, .entA 1), (true, .entA 4)], [(true, .entB 3)])
  | 21 => ([(false, .preT 1)], [(false, .entB 5)])
  | 22 => ([(true, .entA 3)], [(true, .entB 1), (true, .preU 1)])
  | ⟨n + 23, h⟩ => absurd h (by omega)

/-- Indicator input on the A side for coordinate `j` (of the 18 input
entries, the first 9 are A's, the last 9 are B's). -/
def indA (j : Fin 18) : Fin 9 → ℤ := fun k => if j.val = k.val then 1 else 0

/-- Indicator input on the B side for coordinate `j`. -/
def indB (j : Fin 18) : Fin 9 → ℤ := fun k => if j.val = k.val + 9 then 1 else 0

/-- The coefficient vector (over the 18 input entries) of one signed atom. -/
def singleCoeffs (p : SignedAtom) : List ℤ :=
  (List.finRange 18).map fun j => evalSigned (indA j) (indB j) p

/-- The coefficient vector of a sum of two signed atoms. -/
def pairCoeffs (p q : SignedAtom) : List ℤ :=
  (List.finRange 18).map fun j =>
    evalSigned (indA j) (indB j) p + evalSigned (indA j) (indB j) q

/-- The coefficient vector of the first operand of `M1`. -/
def m1LeftCoeffs : List ℤ :=
  (List.finRange 18).map fun j => evalOperand (indA j) (indB j) (Mop 1).1

set_option maxRecDepth 100000 in
/-- Claim C4, counterexample: the first operand of `M1` is a sum of three
signed atoms (`-A3 + A4 - A7`), and over ℤ its value is not expressible as
a single signed atom nor as a sum of exactly two signed atoms drawn from
the raw entries, the preprocessed terms `t0..t5`/`u0..u5`, and their
negations — so this operand is not drawn from the claimed operand set. -/
theorem claim_C4_counterexample :
    (Mop 1).1.length = 3 ∧
    (¬ ∃ p : SignedAtom, ∀ A B : Fin 9 → ℤ,
      evalSigned A B p = evalOperand A B (Mop 1).1) ∧
    (¬ ∃ p q : SignedAtom, ∀ A B : Fin 9 → ℤ,
      evalSigned A B p + evalSigned A B q = evalOperand A B (Mop 1).1) := by
  refine ⟨rfl, ?_, ?_⟩
  · rintro ⟨p, h⟩
    have hfg : (fun j : Fin 18 => evalSigned (indA j) (indB j) p) =
        fun j : Fin 18 => evalOperand (indA j) (indB j) (Mop 1).1 :=
      funext fun j => h (indA j) (indB j)
    have hc : singleCoeffs p = m1LeftCoeffs := by
      simp only [singleCoeffs, m1LeftCoeffs, hfg]
    have hno : ∀ q : SignedAtom, singleCoeffs q ≠ m1LeftCoeffs := by decide
    exact hno p hc
  · rintro ⟨p, q, h⟩
    have hfg : (fun j : Fin 18 =>
        evalSigned (indA j) (indB j) p + evalSigned (indA j) (indB j) q) =
        fun j : Fin 18 => evalOperand (indA j) (indB j) (Mop 1).1 :=
      funext fun j => h (indA j) (indB j)
    have hc : pairCoeffs p q = m1LeftCoeffs := by
      simp only [pairCoeffs, m1LeftCoeffs, hfg]
    have hno : ∀ p2 q2 : SignedAtom, pairCoeffs p2 q2 ≠ m1LeftCoeffs := by
      decide
    exact hno p q hc

/-- Claim C4, amended: each of the 23 products is the product of exactly
two operands, where each operand is a left-to-right sum of at least one and
at most three signed atoms (raw entries, preprocessed terms `t0..t5` and
`u0..u5`, or negations of these), and the transcribed operand lists
evaluate to exactly the source's products. -/
theorem claim_C4_amended (A B : Fin 9 → R) (i : Fin 23) :
    1 ≤ (Mop i).1.length ∧ (Mop i).1.length ≤ 3 ∧
    1 ≤ (Mop i).2.length ∧ (Mop i).2.length ≤ 3 ∧
    Mfun i A B = evalOperand A B (Mop i).1 * evalOperand A B (Mop i).2 := by
  fin_cases i <;>
    refine ⟨by decide, by decide, by decide, by decide, ?_⟩ <;>
    simp [Mop, Mfun, M0, M1, M2, M3, M4, M5, M6, M7, M8, M9, M10, M11, M12,
      M13, M14, M15, M16, M17, M18, M19, M20, M21, M22,
      t0, t1, t2, t3, t4, t5, u0, u1, u2, u3, u4, u5, tfun, ufun,
      evalOperand, evalSigned, evalAtom, List.foldl] <;>
    ring

end Verify
